import Mathlib

/-!
Verification of the `DspManager` session manager (`owrx/dsp.py`) of
openwebrx, as a shallow embedding.

The file embeds the `DspManager` class faithfully.  External collaborators
that live elsewhere in the repository (the reactive property system
`owrx/property.py`, the pipeline controller `csdr.dsp`, the shared source
`owrx/source.py`, the transport handler) are modelled from the spec, as
noted on each definition.
-/

/-- Dynamically typed property values (python values stored in the
property layers). -/
inductive PVal where
  | vBool (b : Bool)
  | vInt (n : Int)
  | vStr (s : String)
deriving DecidableEq, Repr

/-- Python truthiness of a value (`if self.props["digimodes_enable"]:`). -/
def PVal.truthy : PVal → Bool
  | .vBool b => b
  | .vInt n => n != 0
  | .vStr s => s != ""

/-- Truthiness of a resolved value; an unresolved key is falsy. -/
def truthyOpt : Option PVal → Bool
  | some v => v.truthy
  | none => false

/-- Python equality test against `False` (`mod == False`): `False` itself
and the number `0` compare equal to `False`; strings never do. -/
def pyEqFalse : PVal → Bool
  | .vBool b => b == false
  | .vInt n => n == 0
  | .vStr _ => false

/-- A protocol decoder, at its interface boundary: its channel name and the
last dial frequency forwarded to it.  Modelled from the spec: the decoders
(`MetaParser` etc.) are external sinks with a `setDialFrequency` contract. -/
structure Parser where
  name : String
  dialFreq : Option Int
deriving DecidableEq, Repr

/-- `parser.setDialFrequency(freq)`. -/
def Parser.setDialFrequency (p : Parser) (freq : Int) : Parser :=
  { p with dialFreq := some freq }

/-- The payload of `handler.write_secondary_dsp_config`. -/
structure SecondaryConfig where
  secondary_fft_size : Option PVal
  if_samp_rate : Int
  secondary_bw : Int
deriving DecidableEq, Repr

/-- Tags for the callbacks wired in `DspManager.__init__`; `runCallback`
gives each tag its meaning.  The set of callbacks is closed, so a tag
inductive is a faithful embedding. -/
inductive Callback where
  | audioCompression
  | fftCompression
  | secondaryFftSize
  | sampRate
  | outputRate
  | offsetFreq
  | squelchLevel
  | lowCut
  | highCut
  | demodulator
  | unvoicedQuality
  | dmrFilter
  | temporaryDirectory
  | dialFreq
  | secondaryMod
  | secondaryOffsetFreq
deriving DecidableEq, Repr

/-- Modelled from the spec: a subscription is (set of watched keys,
callback, cancelled flag); `owrx/property.py` is not under `src/`. -/
structure Subscription where
  keys : List String
  cb : Callback
  cancelled : Bool
deriving DecidableEq, Repr

/-- Association-list lookup for property entries. -/
def alistGet : List (String × PVal) → String → Option PVal
  | [], _ => none
  | (k', v') :: rest, k => if k = k' then some v' else alistGet rest k

/-- Association-list update (overwrite or append). -/
def alistSet : List (String × PVal) → String → PVal → List (String × PVal)
  | [], k, v => [(k, v)]
  | (k', v') :: rest, k, v =>
      if k = k' then (k, v) :: rest else (k', v') :: alistSet rest k v

/-- Modelled from the spec: a `PropertyLayer` with an allow-list filter
(`PropertyLayer().filter(...)`); reads and writes outside the allow-list
are invisible. -/
structure PropertyLayer where
  entries : List (String × PVal)
  allow : List String
deriving DecidableEq, Repr

/-- Read through the filter: a key outside the allow-list is undefined. -/
def layerGet (l : PropertyLayer) (k : String) : Option PVal :=
  if k ∈ l.allow then alistGet l.entries k else none

/-- Write through the filter: a write outside the allow-list is invisible. -/
def layerSet (l : PropertyLayer) (k : String) (v : PVal) : PropertyLayer :=
  if k ∈ l.allow then { l with entries := alistSet l.entries k v } else l

/-- Modelled from the spec: two-layer `PropertyStack` resolution — the
session-local layer (priority 0) answers first, the shared source's layer
(priority 1) is the fallback; absence everywhere is `none`. -/
def stackResolve (loc src : PropertyLayer) (k : String) : Option PVal :=
  match layerGet loc k with
  | some v => some v
  | none => layerGet src k

/-- Modelled from the spec: the pipeline controller (`csdr.dsp`) at its
configuration surface.  Setters store the configured value; `running`,
`startCount` and `stopCount` record the pipeline lifecycle side effects;
`ifSampRate` and `secondaryBw` are the controller's derived values
(`if_samp_rate()` / `secondary_bw()`), kept opaque. -/
structure DspState where
  running : Bool
  startCount : Nat
  stopCount : Nat
  bpf : PVal × PVal
  audio_compression : Option PVal
  fft_compression : Option PVal
  secondary_fft_size : Option PVal
  samp_rate : Option PVal
  output_rate : Option PVal
  offset_freq : Option PVal
  squelch_level : Option PVal
  demodulator : Option PVal
  unvoiced_quality : Option PVal
  dmr_filter : Option PVal
  temporary_directory : Option PVal
  secondary_demod : Option PVal
  secondary_offset_freq : Option PVal
  csdr_dynamic_bufsize : Option PVal
  csdr_print_bufsizes : Option PVal
  csdr_through : Option PVal
  ifSampRate : Int
  secondaryBw : Int
deriving DecidableEq, Repr

/-- Modelled from the spec: `dsp.start()` is idempotent — it never
double-starts an already running pipeline. -/
def DspState.start (d : DspState) : DspState :=
  if d.running then d
  else { d with running := true, startCount := d.startCount + 1 }

/-- Modelled from the spec: `dsp.stop()` is a no-op on an already stopped
pipeline (no second stop side effect). -/
def DspState.stop (d : DspState) : DspState :=
  if d.running then { d with running := false, stopCount := d.stopCount + 1 }
  else d

def DspState.get_bpf (d : DspState) : PVal × PVal := d.bpf

def DspState.set_bpf (d : DspState) (low high : PVal) : DspState :=
  { d with bpf := (low, high) }

def DspState.set_audio_compression (d : DspState) (v : PVal) : DspState :=
  { d with audio_compression := some v }

def DspState.set_fft_compression (d : DspState) (v : PVal) : DspState :=
  { d with fft_compression := some v }

def DspState.set_secondary_fft_size (d : DspState) (v : PVal) : DspState :=
  { d with secondary_fft_size := some v }

def DspState.set_samp_rate (d : DspState) (v : PVal) : DspState :=
  { d with samp_rate := some v }

def DspState.set_output_rate (d : DspState) (v : PVal) : DspState :=
  { d with output_rate := some v }

def DspState.set_offset_freq (d : DspState) (v : PVal) : DspState :=
  { d with offset_freq := some v }

def DspState.set_squelch_level (d : DspState) (v : PVal) : DspState :=
  { d with squelch_level := some v }

def DspState.set_demodulator (d : DspState) (v : PVal) : DspState :=
  { d with demodulator := some v }

def DspState.set_unvoiced_quality (d : DspState) (v : PVal) : DspState :=
  { d with unvoiced_quality := some v }

def DspState.set_dmr_filter (d : DspState) (v : PVal) : DspState :=
  { d with dmr_filter := some v }

def DspState.set_temporary_directory (d : DspState) (v : PVal) : DspState :=
  { d with temporary_directory := some v }

def DspState.set_secondary_demodulator (d : DspState) (v : Option PVal) : DspState :=
  { d with secondary_demod := v }

def DspState.set_secondary_offset_freq (d : DspState) (v : PVal) : DspState :=
  { d with secondary_offset_freq := some v }

def DspState.if_samp_rate (d : DspState) : Int := d.ifSampRate

def DspState.secondary_bw (d : DspState) : Int := d.secondaryBw

/-- The session manager's whole observable state: the two property layers
of its stack, the pipeline controller, the announcements written to the
session transport, the protocol decoders, the subscription store (all
subscription objects ever created, by index), the manager's own handle
list `subscriptions`, and its view of the shared source (availability,
client registration). -/
structure DspManager where
  localLayer : PropertyLayer
  sourceLayer : PropertyLayer
  dsp : DspState
  secondaryConfigs : List SecondaryConfig
  parsers : List Parser
  subsStore : List Subscription
  subscriptions : List Nat
  sourceAvailable : Bool
  registered : Bool
deriving DecidableEq, Repr

/-- `self.props[key]`: resolution over the two-layer stack. -/
def DspManager.resolve (m : DspManager) (k : String) : Option PVal :=
  stackResolve m.localLayer m.sourceLayer k

/-- `set_low_cut` (dsp.py lines 58-61): read the current band, overwrite
the low edge, reapply both. -/
def set_low_cut (m : DspManager) (cut : PVal) : DspManager :=
  { m with dsp := m.dsp.set_bpf cut m.dsp.get_bpf.2 }

/-- `set_high_cut` (dsp.py lines 63-66): read the current band, overwrite
the high edge, reapply both. -/
def set_high_cut (m : DspManager) (cut : PVal) : DspManager :=
  { m with dsp := m.dsp.set_bpf m.dsp.get_bpf.1 cut }

/-- `set_dial_freq` (dsp.py lines 68-71): ignore the event's key and value,
recompute center frequency plus offset frequency from the resolved stack,
forward it to every parser.  Convention: an addition whose operands are not
both integers would raise in python; the claims never reach that case, and
it is modelled as leaving the state unchanged. -/
def set_dial_freq (m : DspManager) (key : String) (value : PVal) : DspManager :=
  match m.resolve "center_freq", m.resolve "offset_freq" with
  | some (.vInt c), some (.vInt o) =>
      { m with parsers := m.parsers.map (fun p => p.setDialFrequency (c + o)) }
  | _, _ => m

/-- `set_secondary_mod` (dsp.py lines 98-109): a value equal to python
`False` means no secondary demodulator; a non-null selection additionally
announces the secondary configuration (resolved `digimodes_fft_size`, the
controller's `if_samp_rate()` and `secondary_bw()`) to the transport. -/
def set_secondary_mod (m : DspManager) (mod : PVal) : DspManager :=
  if pyEqFalse mod then
    { m with dsp := m.dsp.set_secondary_demodulator none }
  else
    let m' := { m with dsp := m.dsp.set_secondary_demodulator (some mod) }
    { m' with
        secondaryConfigs := m'.secondaryConfigs ++
          [{ secondary_fft_size := m'.resolve "digimodes_fft_size",
             if_samp_rate := m'.dsp.if_samp_rate,
             secondary_bw := m'.dsp.secondary_bw }] }

/-- Dispatch a callback tag to the function it embeds; `key` and `value`
are the change event's arguments. -/
def runCallback (cb : Callback) (key : String) (value : PVal) (m : DspManager) : DspManager :=
  match cb with
  | .audioCompression => { m with dsp := m.dsp.set_audio_compression value }
  | .fftCompression => { m with dsp := m.dsp.set_fft_compression value }
  | .secondaryFftSize => { m with dsp := m.dsp.set_secondary_fft_size value }
  | .sampRate => { m with dsp := m.dsp.set_samp_rate value }
  | .outputRate => { m with dsp := m.dsp.set_output_rate value }
  | .offsetFreq => { m with dsp := m.dsp.set_offset_freq value }
  | .squelchLevel => { m with dsp := m.dsp.set_squelch_level value }
  | .lowCut => set_low_cut m value
  | .highCut => set_high_cut m value
  | .demodulator => { m with dsp := m.dsp.set_demodulator value }
  | .unvoicedQuality => { m with dsp := m.dsp.set_unvoiced_quality value }
  | .dmrFilter => { m with dsp := m.dsp.set_dmr_filter value }
  | .temporaryDirectory => { m with dsp := m.dsp.set_temporary_directory value }
  | .dialFreq => set_dial_freq m key value
  | .secondaryMod => set_secondary_mod m value
  | .secondaryOffsetFreq => { m with dsp := m.dsp.set_secondary_offset_freq value }

/-- Modelled from the spec: notification dispatch — fire every
not-cancelled subscription watching the mutated key, in registration
order, with the new resolved value. -/
def fireSubs (k : String) (v : PVal) (subs : List Subscription) (m : DspManager) : DspManager :=
  match subs with
  | [] => m
  | s :: rest =>
      fireSubs k v rest
        (if s.cancelled = false ∧ k ∈ s.keys then runCallback s.cb k v m else m)

/-- Fire the subscriptions watching `k` with its current resolved value. -/
def fireKey (m : DspManager) (k : String) : DspManager :=
  match m.resolve k with
  | some v => fireSubs k v m.subsStore m
  | none => m

/-- `setProperty` (dsp.py lines 146-147) combined with the stack's
notification semantics, modelled from the spec: the write goes to the
session-local layer; subscriptions fire exactly when the resolved value of
the key changes. -/
def DspManager.setProperty (m : DspManager) (prop : String) (value : PVal) : DspManager :=
  let m' := { m with localLayer := layerSet m.localLayer prop value }
  if m.resolve prop = m'.resolve prop then m' else fireKey m' prop

/-- Modelled from the spec: a mutation of the shared source's (inherited)
layer, with the same change-detection notification semantics. -/
def setSourceProperty (m : DspManager) (prop : String) (value : PVal) : DspManager :=
  let m' := { m with sourceLayer := layerSet m.sourceLayer prop value }
  if m.resolve prop = m'.resolve prop then m' else fireKey m' prop

/-- Modelled from the spec: `props.wireProperty(key, cb)` — register a
single-key subscription and invoke the callback immediately with the
key's current resolved value when that value is defined. -/
def wireOne (m : DspManager) (k : String) (cb : Callback) : DspManager :=
  let m' := { m with
                subsStore := m.subsStore ++ [{ keys := [k], cb := cb, cancelled := false }],
                subscriptions := m.subscriptions ++ [m.subsStore.length] }
  match m'.resolve k with
  | some v => runCallback cb k v m'
  | none => m'

/-- Modelled from the spec: `props.filter(keys).wire(cb)` — register a
composite subscription (no immediate invocation). -/
def wireComposite (m : DspManager) (ks : List String) (cb : Callback) : DspManager :=
  { m with
      subsStore := m.subsStore ++ [{ keys := ks, cb := cb, cancelled := false }],
      subscriptions := m.subscriptions ++ [m.subsStore.length] }

/-- Register a list of single-key subscriptions in order. -/
def wireAll (m : DspManager) (ws : List (String × Callback)) : DspManager :=
  ws.foldl (fun m kc => wireOne m kc.1 kc.2) m

/-- The session-local layer's allow-list (dsp.py lines 29-38). -/
def localKeys : List String :=
  ["output_rate", "squelch_level", "secondary_mod", "low_cut", "high_cut",
   "offset_freq", "mod", "secondary_offset_freq"]

/-- The inherited source layer's allow-list (dsp.py lines 40-53). -/
def sourceKeys : List String :=
  ["audio_compression", "fft_compression", "digimodes_fft_size",
   "csdr_dynamic_bufsize", "csdr_print_bufsizes", "csdr_through",
   "digimodes_enable", "samp_rate", "digital_voice_unvoiced_quality",
   "dmr_filter", "temporary_directory", "center_freq"]

/-- The `wireProperty` registrations of dsp.py lines 74-86, in order. -/
def baseWires : List (String × Callback) :=
  [("audio_compression", .audioCompression),
   ("fft_compression", .fftCompression),
   ("digimodes_fft_size", .secondaryFftSize),
   ("samp_rate", .sampRate),
   ("output_rate", .outputRate),
   ("offset_freq", .offsetFreq),
   ("squelch_level", .squelchLevel),
   ("low_cut", .lowCut),
   ("high_cut", .highCut),
   ("mod", .demodulator),
   ("digital_voice_unvoiced_quality", .unvoicedQuality),
   ("dmr_filter", .dmrFilter),
   ("temporary_directory", .temporaryDirectory)]

/-- The four protocol decoders of dsp.py lines 20-25. -/
def initParsers : List Parser :=
  [{ name := "meta", dialFreq := none },
   { name := "wsjt_demod", dialFreq := none },
   { name := "packet_demod", dialFreq := none },
   { name := "pocsag_demod", dialFreq := none }]

/-- The pipeline controller as freshly constructed; `ir` and `bw` are its
opaque derived values. -/
def initDsp (ir bw : Int) : DspState :=
  { running := false, startCount := 0, stopCount := 0,
    bpf := (.vInt 0, .vInt 0),
    audio_compression := none, fft_compression := none,
    secondary_fft_size := none, samp_rate := none, output_rate := none,
    offset_freq := none, squelch_level := none, demodulator := none,
    unvoiced_quality := none, dmr_filter := none,
    temporary_directory := none, secondary_demod := none,
    secondary_offset_freq := none, csdr_dynamic_bufsize := none,
    csdr_print_bufsizes := none, csdr_through := none,
    ifSampRate := ir, secondaryBw := bw }

/-- `DspManager.__init__`, stage 1 (dsp.py lines 17-56): the two-layer
stack (empty filtered local layer over the source's filtered layer), a
fresh pipeline controller, the four decoders, no subscriptions yet. -/
def initManager (src : List (String × PVal)) (available : Bool) (ir bw : Int) : DspManager :=
  { localLayer := { entries := [], allow := localKeys },
    sourceLayer := { entries := src, allow := sourceKeys },
    dsp := initDsp ir bw,
    secondaryConfigs := [], parsers := initParsers,
    subsStore := [], subscriptions := [],
    sourceAvailable := available, registered := false }

/-- `DspManager.__init__`, stage 2 (dsp.py lines 73-88): wire the thirteen
single-key subscriptions (each firing immediately when its key resolves)
and the composite dial-frequency subscription. -/
def wiredManager (src : List (String × PVal)) (available : Bool) (ir bw : Int) : DspManager :=
  wireComposite (wireAll (initManager src available ir bw) baseWires)
    ["center_freq", "offset_freq"] .dialFreq

/-- `DspManager.__init__`, stage 3 (dsp.py lines 90-94): startup defaults
(offset frequency 0, default passband) and the one-time copy of the three
buffering/debug flags from the resolved stack into the controller. -/
def defaultedManager (src : List (String × PVal)) (available : Bool) (ir bw : Int) : DspManager :=
  let m1 := wiredManager src available ir bw
  let m2 := { m1 with dsp := (m1.dsp.set_offset_freq (.vInt 0)).set_bpf (.vInt (-4000)) (.vInt 4000) }
  { m2 with dsp := { m2.dsp with
      csdr_dynamic_bufsize := m2.resolve "csdr_dynamic_bufsize",
      csdr_print_bufsizes := m2.resolve "csdr_print_bufsizes",
      csdr_through := m2.resolve "csdr_through" } }

/-- `DspManager.__init__`, stage 4 (dsp.py lines 96-114): when the
digital-modes feature flag resolves truthy, wire the secondary-demodulator
and secondary-offset subscriptions. -/
def digiManager (src : List (String × PVal)) (available : Bool) (ir bw : Int) : DspManager :=
  let m3 := defaultedManager src available ir bw
  if truthyOpt (m3.resolve "digimodes_enable") then
    wireOne (wireOne m3 "secondary_mod" .secondaryMod) "secondary_offset_freq" .secondaryOffsetFreq
  else m3

/-- `DspManager.__init__`, complete (dsp.py lines 17-118): the four stages
followed by registration as a client of the shared source (line 116). -/
def mkManager (src : List (String × PVal)) (available : Bool) (ir bw : Int) : DspManager :=
  { digiManager src available ir bw with registered := true }

/-- `DspManager.start` (dsp.py lines 120-122): start the pipeline only if
the shared source reports itself available. -/
def DspManager.start (m : DspManager) : DspManager :=
  if m.sourceAvailable then { m with dsp := m.dsp.start } else m

/-- Mark as cancelled every stored subscription whose index (counting from
`i`) is in `handles` — the heap effect of `for sub in self.subscriptions:
sub.cancel()`. -/
def cancelMarked (handles : List Nat) : Nat → List Subscription → List Subscription
  | _, [] => []
  | i, s :: rest =>
      (if i ∈ handles then { s with cancelled := true } else s) :: cancelMarked handles (i + 1) rest

/-- `DspManager.stop` (dsp.py lines 139-144): stop the pipeline,
deregister from the shared source, cancel every subscription in the
manager's list, clear the list.  Deregistration of a non-registered
client is modelled from the spec as a no-op. -/
def DspManager.stop (m : DspManager) : DspManager :=
  { m with dsp := m.dsp.stop,
           registered := false,
           subsStore := cancelMarked m.subscriptions 0 m.subsStore,
           subscriptions := [] }

/-- The shared source's notification states (`SdrSource.STATE_*`),
modelled from the spec at the interface boundary. -/
inductive SdrSourceState where
  | stopped
  | starting
  | running
  | stopping
  | failed
deriving DecidableEq, Repr

/-- `DspManager.onStateChange` (dsp.py lines 152-161): RUNNING restarts
the pipeline directly; STOPPING and FAILED shut it down; anything else is
ignored. -/
def DspManager.onStateChange (m : DspManager) (state : SdrSourceState) : DspManager :=
  match state with
  | .running => { m with dsp := m.dsp.start }
  | .stopping => { m with dsp := m.dsp.stop }
  | .failed => { m with dsp := m.dsp.stop }
  | _ => m

/-- `DspManager.onBusyStateChange` (dsp.py lines 163-164): `pass`. -/
def DspManager.onBusyStateChange (m : DspManager) (state : Bool) : DspManager :=
  m

/-- A sink a pipeline output channel can be routed to. -/
inductive Sink where
  | handlerAudio
  | handlerSMeter
  | handlerSecondaryFFT
  | handlerSecondaryDemod
  | parserSink (name : String)
deriving DecidableEq, Repr

/-- Generic association-list lookup, the embedding of a python dict
indexing `writers[t]`: `none` is the `KeyError` case. -/
def tableGet {α : Type} : List (String × α) → String → Option α
  | [], _ => none
  | (k', v') :: rest, k => if k = k' then some v' else tableGet rest k

/-- `DspManager.receive_output` (dsp.py lines 124-137), restricted to sink
resolution: the fixed writer table plus one entry per parser; an unknown
channel name is an unconditional lookup failure (`KeyError`), returned as
`none`. -/
def DspManager.receive_output (m : DspManager) (t : String) : Option Sink :=
  tableGet
    ([("audio", Sink.handlerAudio),
      ("smeter", Sink.handlerSMeter),
      ("secondary_fft", Sink.handlerSecondaryFFT),
      ("secondary_demod", Sink.handlerSecondaryDemod)] ++
      m.parsers.map (fun p => (p.name, Sink.parserSink p.name)))
    t

/-! ### Invariance lemmas for the callback bodies -/

theorem runCallback_localLayer (cb : Callback) (k : String) (v : PVal) (m : DspManager) :
    (runCallback cb k v m).localLayer = m.localLayer := by
  cases cb <;>
    first
      | rfl
      | (simp only [runCallback, set_dial_freq, set_secondary_mod]
         split <;> rfl)

theorem runCallback_sourceLayer (cb : Callback) (k : String) (v : PVal) (m : DspManager) :
    (runCallback cb k v m).sourceLayer = m.sourceLayer := by
  cases cb <;>
    first
      | rfl
      | (simp only [runCallback, set_dial_freq, set_secondary_mod]
         split <;> rfl)

theorem runCallback_subsStore (cb : Callback) (k : String) (v : PVal) (m : DspManager) :
    (runCallback cb k v m).subsStore = m.subsStore := by
  cases cb <;>
    first
      | rfl
      | (simp only [runCallback, set_dial_freq, set_secondary_mod]
         split <;> rfl)

theorem runCallback_subscriptions (cb : Callback) (k : String) (v : PVal) (m : DspManager) :
    (runCallback cb k v m).subscriptions = m.subscriptions := by
  cases cb <;>
    first
      | rfl
      | (simp only [runCallback, set_dial_freq, set_secondary_mod]
         split <;> rfl)

theorem runCallback_registered (cb : Callback) (k : String) (v : PVal) (m : DspManager) :
    (runCallback cb k v m).registered = m.registered := by
  cases cb <;>
    first
      | rfl
      | (simp only [runCallback, set_dial_freq, set_secondary_mod]
         split <;> rfl)

theorem runCallback_sourceAvailable (cb : Callback) (k : String) (v : PVal) (m : DspManager) :
    (runCallback cb k v m).sourceAvailable = m.sourceAvailable := by
  cases cb <;>
    first
      | rfl
      | (simp only [runCallback, set_dial_freq, set_secondary_mod]
         split <;> rfl)

theorem runCallback_resolve (cb : Callback) (k k' : String) (v : PVal) (m : DspManager) :
    (runCallback cb k v m).resolve k' = m.resolve k' := by
  simp only [DspManager.resolve, runCallback_localLayer, runCallback_sourceLayer]

/-- No callback touches the three buffering/debug flags of the controller. -/
theorem runCallback_flags (cb : Callback) (k : String) (v : PVal) (m : DspManager) :
    (runCallback cb k v m).dsp.csdr_dynamic_bufsize = m.dsp.csdr_dynamic_bufsize ∧
    (runCallback cb k v m).dsp.csdr_print_bufsizes = m.dsp.csdr_print_bufsizes ∧
    (runCallback cb k v m).dsp.csdr_through = m.dsp.csdr_through := by
  cases cb <;>
    first
      | exact ⟨rfl, rfl, rfl⟩
      | (simp only [runCallback, set_dial_freq, set_secondary_mod,
          DspState.set_secondary_demodulator, DspState.if_samp_rate, DspState.secondary_bw]
         split <;> exact ⟨rfl, rfl, rfl⟩)

/-- No callback touches the pipeline's running state or lifecycle
counters. -/
theorem runCallback_lifecycle (cb : Callback) (k : String) (v : PVal) (m : DspManager) :
    (runCallback cb k v m).dsp.running = m.dsp.running ∧
    (runCallback cb k v m).dsp.startCount = m.dsp.startCount ∧
    (runCallback cb k v m).dsp.stopCount = m.dsp.stopCount := by
  cases cb <;>
    first
      | exact ⟨rfl, rfl, rfl⟩
      | (simp only [runCallback, set_dial_freq, set_secondary_mod,
          DspState.set_secondary_demodulator, DspState.if_samp_rate, DspState.secondary_bw]
         split <;> exact ⟨rfl, rfl, rfl⟩)

theorem runCallback_parsers (cb : Callback) (k : String) (v : PVal) (m : DspManager)
    (h : cb ≠ .dialFreq) : (runCallback cb k v m).parsers = m.parsers := by
  cases cb <;>
    first
      | rfl
      | (simp only [runCallback, set_secondary_mod]
         split <;> rfl)
      | exact absurd rfl h

theorem runCallback_offset_freq (cb : Callback) (k : String) (v : PVal) (m : DspManager)
    (h : cb ≠ .offsetFreq) : (runCallback cb k v m).dsp.offset_freq = m.dsp.offset_freq := by
  cases cb <;>
    first
      | rfl
      | (simp only [runCallback, set_dial_freq, set_secondary_mod,
          DspState.set_secondary_demodulator]
         split <;> rfl)
      | exact absurd rfl h

theorem runCallback_bpf (cb : Callback) (k : String) (v : PVal) (m : DspManager)
    (h1 : cb ≠ .lowCut) (h2 : cb ≠ .highCut) :
    (runCallback cb k v m).dsp.bpf = m.dsp.bpf := by
  cases cb <;>
    first
      | rfl
      | (simp only [runCallback, set_dial_freq, set_secondary_mod,
          DspState.set_secondary_demodulator]
         split <;> rfl)
      | exact absurd rfl h1
      | exact absurd rfl h2

theorem runCallback_secondaryConfigs (cb : Callback) (k : String) (v : PVal) (m : DspManager)
    (h : cb ≠ .secondaryMod) :
    (runCallback cb k v m).secondaryConfigs = m.secondaryConfigs := by
  cases cb <;>
    first
      | rfl
      | (simp only [runCallback, set_dial_freq]
         split <;> rfl)
      | exact absurd rfl h

/-! ### Projections through the wiring of `__init__` -/

theorem wireOne_subsStore (m : DspManager) (k : String) (cb : Callback) :
    (wireOne m k cb).subsStore =
      m.subsStore ++ [{ keys := [k], cb := cb, cancelled := false }] := by
  simp only [wireOne]
  split <;> simp [runCallback_subsStore]

theorem wireOne_localLayer (m : DspManager) (k : String) (cb : Callback) :
    (wireOne m k cb).localLayer = m.localLayer := by
  simp only [wireOne]
  split <;> simp [runCallback_localLayer]

theorem wireOne_sourceLayer (m : DspManager) (k : String) (cb : Callback) :
    (wireOne m k cb).sourceLayer = m.sourceLayer := by
  simp only [wireOne]
  split <;> simp [runCallback_sourceLayer]

theorem wireOne_sourceAvailable (m : DspManager) (k : String) (cb : Callback) :
    (wireOne m k cb).sourceAvailable = m.sourceAvailable := by
  simp only [wireOne]
  split <;> simp [runCallback_sourceAvailable]

theorem wireOne_registered (m : DspManager) (k : String) (cb : Callback) :
    (wireOne m k cb).registered = m.registered := by
  simp only [wireOne]
  split <;> simp [runCallback_registered]

theorem wireOne_resolve (m : DspManager) (k k' : String) (cb : Callback) :
    (wireOne m k cb).resolve k' = m.resolve k' := by
  simp only [DspManager.resolve, wireOne_localLayer, wireOne_sourceLayer]

theorem wireOne_flags (m : DspManager) (k : String) (cb : Callback) :
    (wireOne m k cb).dsp.csdr_dynamic_bufsize = m.dsp.csdr_dynamic_bufsize ∧
    (wireOne m k cb).dsp.csdr_print_bufsizes = m.dsp.csdr_print_bufsizes ∧
    (wireOne m k cb).dsp.csdr_through = m.dsp.csdr_through := by
  simp only [wireOne]
  split <;> simp [runCallback_flags]

theorem wireOne_lifecycle (m : DspManager) (k : String) (cb : Callback) :
    (wireOne m k cb).dsp.running = m.dsp.running ∧
    (wireOne m k cb).dsp.startCount = m.dsp.startCount ∧
    (wireOne m k cb).dsp.stopCount = m.dsp.stopCount := by
  simp only [wireOne]
  split <;> simp [runCallback_lifecycle]

theorem wireOne_parsers (m : DspManager) (k : String) (cb : Callback)
    (h : cb ≠ .dialFreq) : (wireOne m k cb).parsers = m.parsers := by
  simp only [wireOne]
  split <;> simp [runCallback_parsers _ _ _ _ h]

theorem wireOne_offset_freq (m : DspManager) (k : String) (cb : Callback)
    (h : cb ≠ .offsetFreq) : (wireOne m k cb).dsp.offset_freq = m.dsp.offset_freq := by
  simp only [wireOne]
  split <;> simp [runCallback_offset_freq _ _ _ _ h]

theorem wireOne_bpf (m : DspManager) (k : String) (cb : Callback)
    (h1 : cb ≠ .lowCut) (h2 : cb ≠ .highCut) :
    (wireOne m k cb).dsp.bpf = m.dsp.bpf := by
  simp only [wireOne]
  split <;> simp [runCallback_bpf _ _ _ _ h1 h2]

theorem wireOne_secondaryConfigs (m : DspManager) (k : String) (cb : Callback)
    (h : cb ≠ .secondaryMod) :
    (wireOne m k cb).secondaryConfigs = m.secondaryConfigs := by
  simp only [wireOne]
  split <;> simp [runCallback_secondaryConfigs _ _ _ _ h]

theorem wireAll_subsStore (ws : List (String × Callback)) (m : DspManager) :
    (wireAll m ws).subsStore =
      m.subsStore ++ ws.map (fun kc => { keys := [kc.1], cb := kc.2, cancelled := false }) := by
  induction ws generalizing m with
  | nil => simp [wireAll]
  | cons kc rest ih =>
      simp only [wireAll, List.foldl_cons, List.map_cons]
      rw [show (List.foldl (fun m kc => wireOne m kc.1 kc.2) (wireOne m kc.1 kc.2) rest) =
            wireAll (wireOne m kc.1 kc.2) rest from rfl, ih, wireOne_subsStore]
      simp

theorem wireAll_localLayer (ws : List (String × Callback)) (m : DspManager) :
    (wireAll m ws).localLayer = m.localLayer := by
  induction ws generalizing m with
  | nil => rfl
  | cons kc rest ih =>
      simp only [wireAll, List.foldl_cons]
      rw [show (List.foldl (fun m kc => wireOne m kc.1 kc.2) (wireOne m kc.1 kc.2) rest) =
            wireAll (wireOne m kc.1 kc.2) rest from rfl, ih, wireOne_localLayer]

theorem wireAll_sourceLayer (ws : List (String × Callback)) (m : DspManager) :
    (wireAll m ws).sourceLayer = m.sourceLayer := by
  induction ws generalizing m with
  | nil => rfl
  | cons kc rest ih =>
      simp only [wireAll, List.foldl_cons]
      rw [show (List.foldl (fun m kc => wireOne m kc.1 kc.2) (wireOne m kc.1 kc.2) rest) =
            wireAll (wireOne m kc.1 kc.2) rest from rfl, ih, wireOne_sourceLayer]

theorem wireAll_sourceAvailable (ws : List (String × Callback)) (m : DspManager) :
    (wireAll m ws).sourceAvailable = m.sourceAvailable := by
  induction ws generalizing m with
  | nil => rfl
  | cons kc rest ih =>
      simp only [wireAll, List.foldl_cons]
      rw [show (List.foldl (fun m kc => wireOne m kc.1 kc.2) (wireOne m kc.1 kc.2) rest) =
            wireAll (wireOne m kc.1 kc.2) rest from rfl, ih, wireOne_sourceAvailable]

theorem wireAll_registered (ws : List (String × Callback)) (m : DspManager) :
    (wireAll m ws).registered = m.registered := by
  induction ws generalizing m with
  | nil => rfl
  | cons kc rest ih =>
      simp only [wireAll, List.foldl_cons]
      rw [show (List.foldl (fun m kc => wireOne m kc.1 kc.2) (wireOne m kc.1 kc.2) rest) =
            wireAll (wireOne m kc.1 kc.2) rest from rfl, ih, wireOne_registered]

theorem wireAll_parsers (ws : List (String × Callback)) (m : DspManager)
    (h : ∀ kc ∈ ws, kc.2 ≠ Callback.dialFreq) :
    (wireAll m ws).parsers = m.parsers := by
  induction ws generalizing m with
  | nil => rfl
  | cons kc rest ih =>
      simp only [wireAll, List.foldl_cons]
      rw [show (List.foldl (fun m kc => wireOne m kc.1 kc.2) (wireOne m kc.1 kc.2) rest) =
            wireAll (wireOne m kc.1 kc.2) rest from rfl,
          ih _ (fun x hx => h x (List.mem_cons_of_mem _ hx)),
          wireOne_parsers _ _ _ (h kc (List.mem_cons_self _ _))]

theorem wireAll_secondaryConfigs (ws : List (String × Callback)) (m : DspManager)
    (h : ∀ kc ∈ ws, kc.2 ≠ Callback.secondaryMod) :
    (wireAll m ws).secondaryConfigs = m.secondaryConfigs := by
  induction ws generalizing m with
  | nil => rfl
  | cons kc rest ih =>
      simp only [wireAll, List.foldl_cons]
      rw [show (List.foldl (fun m kc => wireOne m kc.1 kc.2) (wireOne m kc.1 kc.2) rest) =
            wireAll (wireOne m kc.1 kc.2) rest from rfl,
          ih _ (fun x hx => h x (List.mem_cons_of_mem _ hx)),
          wireOne_secondaryConfigs _ _ _ (h kc (List.mem_cons_self _ _))]

/-! ### Projections through the construction stages -/

theorem wireOne_unresolved (m : DspManager) (k : String) (cb : Callback)
    (h : m.resolve k = none) :
    wireOne m k cb =
      { m with subsStore := m.subsStore ++ [{ keys := [k], cb := cb, cancelled := false }],
               subscriptions := m.subscriptions ++ [m.subsStore.length] } := by
  simp only [wireOne]
  rw [show ({ m with
        subsStore := m.subsStore ++ [{ keys := [k], cb := cb, cancelled := false }],
        subscriptions := m.subscriptions ++ [m.subsStore.length] } : DspManager).resolve k =
      m.resolve k from rfl, h]

theorem wiredManager_localLayer (src : List (String × PVal)) (a : Bool) (ir bw : Int) :
    (wiredManager src a ir bw).localLayer = { entries := [], allow := localKeys } := by
  simp [wiredManager, wireComposite, wireAll_localLayer, initManager]

theorem wiredManager_sourceLayer (src : List (String × PVal)) (a : Bool) (ir bw : Int) :
    (wiredManager src a ir bw).sourceLayer = { entries := src, allow := sourceKeys } := by
  simp [wiredManager, wireComposite, wireAll_sourceLayer, initManager]

theorem wiredManager_subsStore (src : List (String × PVal)) (a : Bool) (ir bw : Int) :
    (wiredManager src a ir bw).subsStore =
      baseWires.map (fun kc => { keys := [kc.1], cb := kc.2, cancelled := false }) ++
        [{ keys := ["center_freq", "offset_freq"], cb := .dialFreq, cancelled := false }] := by
  simp [wiredManager, wireComposite, wireAll_subsStore, initManager]

theorem wireComposite_parsers (m : DspManager) (ks : List String) (cb : Callback) :
    (wireComposite m ks cb).parsers = m.parsers := rfl

theorem wireComposite_secondaryConfigs (m : DspManager) (ks : List String) (cb : Callback) :
    (wireComposite m ks cb).secondaryConfigs = m.secondaryConfigs := rfl

theorem wiredManager_parsers (src : List (String × PVal)) (a : Bool) (ir bw : Int) :
    (wiredManager src a ir bw).parsers = initParsers := by
  rw [wiredManager, wireComposite_parsers, wireAll_parsers _ _ (by simp [baseWires])]
  rfl

theorem wiredManager_secondaryConfigs (src : List (String × PVal)) (a : Bool) (ir bw : Int) :
    (wiredManager src a ir bw).secondaryConfigs = [] := by
  rw [wiredManager, wireComposite_secondaryConfigs, wireAll_secondaryConfigs _ _ (by simp [baseWires])]
  rfl

theorem wiredManager_sourceAvailable (src : List (String × PVal)) (a : Bool) (ir bw : Int) :
    (wiredManager src a ir bw).sourceAvailable = a := by
  simp [wiredManager, wireComposite, wireAll_sourceAvailable, initManager]

theorem wiredManager_resolve (src : List (String × PVal)) (a : Bool) (ir bw : Int) (k : String) :
    (wiredManager src a ir bw).resolve k =
      stackResolve { entries := [], allow := localKeys } { entries := src, allow := sourceKeys } k := by
  simp only [DspManager.resolve, wiredManager_localLayer, wiredManager_sourceLayer]

theorem defaultedManager_localLayer (src : List (String × PVal)) (a : Bool) (ir bw : Int) :
    (defaultedManager src a ir bw).localLayer = { entries := [], allow := localKeys } := by
  simp only [defaultedManager]
  exact wiredManager_localLayer src a ir bw

theorem defaultedManager_sourceLayer (src : List (String × PVal)) (a : Bool) (ir bw : Int) :
    (defaultedManager src a ir bw).sourceLayer = { entries := src, allow := sourceKeys } := by
  simp only [defaultedManager]
  exact wiredManager_sourceLayer src a ir bw

theorem defaultedManager_resolve (src : List (String × PVal)) (a : Bool) (ir bw : Int) (k : String) :
    (defaultedManager src a ir bw).resolve k =
      stackResolve { entries := [], allow := localKeys } { entries := src, allow := sourceKeys } k := by
  simp only [DspManager.resolve, defaultedManager_localLayer, defaultedManager_sourceLayer]

theorem defaultedManager_subsStore (src : List (String × PVal)) (a : Bool) (ir bw : Int) :
    (defaultedManager src a ir bw).subsStore =
      baseWires.map (fun kc => { keys := [kc.1], cb := kc.2, cancelled := false }) ++
        [{ keys := ["center_freq", "offset_freq"], cb := .dialFreq, cancelled := false }] := by
  simp only [defaultedManager]
  exact wiredManager_subsStore src a ir bw

theorem defaultedManager_parsers (src : List (String × PVal)) (a : Bool) (ir bw : Int) :
    (defaultedManager src a ir bw).parsers = initParsers := by
  simp only [defaultedManager]
  exact wiredManager_parsers src a ir bw

theorem defaultedManager_secondaryConfigs (src : List (String × PVal)) (a : Bool) (ir bw : Int) :
    (defaultedManager src a ir bw).secondaryConfigs = [] := by
  simp only [defaultedManager]
  exact wiredManager_secondaryConfigs src a ir bw

theorem defaultedManager_sourceAvailable (src : List (String × PVal)) (a : Bool) (ir bw : Int) :
    (defaultedManager src a ir bw).sourceAvailable = a := by
  simp only [defaultedManager]
  exact wiredManager_sourceAvailable src a ir bw

theorem defaultedManager_offset_freq (src : List (String × PVal)) (a : Bool) (ir bw : Int) :
    (defaultedManager src a ir bw).dsp.offset_freq = some (.vInt 0) := by
  simp [defaultedManager, DspState.set_bpf, DspState.set_offset_freq]

theorem defaultedManager_bpf (src : List (String × PVal)) (a : Bool) (ir bw : Int) :
    (defaultedManager src a ir bw).dsp.bpf = (.vInt (-4000), .vInt 4000) := by
  simp [defaultedManager, DspState.set_bpf]

theorem defaultedManager_flags (src : List (String × PVal)) (a : Bool) (ir bw : Int) :
    (defaultedManager src a ir bw).dsp.csdr_dynamic_bufsize =
        stackResolve { entries := [], allow := localKeys } { entries := src, allow := sourceKeys }
          "csdr_dynamic_bufsize" ∧
    (defaultedManager src a ir bw).dsp.csdr_print_bufsizes =
        stackResolve { entries := [], allow := localKeys } { entries := src, allow := sourceKeys }
          "csdr_print_bufsizes" ∧
    (defaultedManager src a ir bw).dsp.csdr_through =
        stackResolve { entries := [], allow := localKeys } { entries := src, allow := sourceKeys }
          "csdr_through" := by
  refine ⟨?_, ?_, ?_⟩ <;>
    simp [defaultedManager, DspManager.resolve, wiredManager_localLayer, wiredManager_sourceLayer,
      DspState.set_bpf, DspState.set_offset_freq]

/-- Resolution over the freshly built two-layer stack. -/
def srcResolve (src : List (String × PVal)) (k : String) : Option PVal :=
  stackResolve { entries := [], allow := localKeys } { entries := src, allow := sourceKeys } k

/-- The composite dial-frequency subscription object. -/
def dialSub : Subscription :=
  { keys := ["center_freq", "offset_freq"], cb := .dialFreq, cancelled := false }

/-- The fourteen subscriptions always registered by `__init__`. -/
def baseSubs : List Subscription :=
  baseWires.map (fun kc => { keys := [kc.1], cb := kc.2, cancelled := false }) ++ [dialSub]

def secModSub : Subscription :=
  { keys := ["secondary_mod"], cb := .secondaryMod, cancelled := false }

def secOffSub : Subscription :=
  { keys := ["secondary_offset_freq"], cb := .secondaryOffsetFreq, cancelled := false }

theorem srcResolve_local_only (src : List (String × PVal)) (k : String)
    (h1 : k ∈ localKeys) (h2 : k ∉ sourceKeys) : srcResolve src k = none := by
  simp [srcResolve, stackResolve, layerGet, h1, h2, alistGet]

theorem digiManager_localLayer (src : List (String × PVal)) (a : Bool) (ir bw : Int) :
    (digiManager src a ir bw).localLayer = { entries := [], allow := localKeys } := by
  simp only [digiManager]
  split <;> simp [wireOne_localLayer, defaultedManager_localLayer]

theorem digiManager_sourceLayer (src : List (String × PVal)) (a : Bool) (ir bw : Int) :
    (digiManager src a ir bw).sourceLayer = { entries := src, allow := sourceKeys } := by
  simp only [digiManager]
  split <;> simp [wireOne_sourceLayer, defaultedManager_sourceLayer]

theorem digiManager_resolve (src : List (String × PVal)) (a : Bool) (ir bw : Int) (k : String) :
    (digiManager src a ir bw).resolve k = srcResolve src k := by
  simp only [DspManager.resolve, srcResolve, digiManager_localLayer, digiManager_sourceLayer]

theorem digiManager_subsStore (src : List (String × PVal)) (a : Bool) (ir bw : Int) :
    (digiManager src a ir bw).subsStore =
      if truthyOpt (srcResolve src "digimodes_enable")
      then baseSubs ++ [secModSub, secOffSub]
      else baseSubs := by
  simp only [digiManager]
  rw [defaultedManager_resolve]
  rw [show stackResolve { entries := [], allow := localKeys }
        { entries := src, allow := sourceKeys } "digimodes_enable" =
      srcResolve src "digimodes_enable" from rfl]
  split
  · rw [wireOne_subsStore, wireOne_subsStore, defaultedManager_subsStore]
    simp [baseSubs, dialSub, secModSub, secOffSub]
  · rw [defaultedManager_subsStore]
    simp [baseSubs, dialSub]

theorem digiManager_parsers (src : List (String × PVal)) (a : Bool) (ir bw : Int) :
    (digiManager src a ir bw).parsers = initParsers := by
  simp only [digiManager]
  split
  · rw [wireOne_parsers _ _ _ (by simp), wireOne_parsers _ _ _ (by simp),
      defaultedManager_parsers]
  · exact defaultedManager_parsers src a ir bw

theorem defaultedManager_resolve_secondary_mod (src : List (String × PVal)) (a : Bool) (ir bw : Int) :
    (defaultedManager src a ir bw).resolve "secondary_mod" = none := by
  rw [defaultedManager_resolve]
  exact srcResolve_local_only src _ (by simp [localKeys]) (by simp [sourceKeys])

theorem wireOne_secondary_mod_skip (src : List (String × PVal)) (a : Bool) (ir bw : Int) :
    wireOne (defaultedManager src a ir bw) "secondary_mod" .secondaryMod =
      { defaultedManager src a ir bw with
          subsStore := (defaultedManager src a ir bw).subsStore ++ [secModSub],
          subscriptions := (defaultedManager src a ir bw).subscriptions ++
            [(defaultedManager src a ir bw).subsStore.length] } :=
  wireOne_unresolved _ _ _ (defaultedManager_resolve_secondary_mod src a ir bw)

theorem digiManager_secondaryConfigs (src : List (String × PVal)) (a : Bool) (ir bw : Int) :
    (digiManager src a ir bw).secondaryConfigs = [] := by
  have hr := defaultedManager_resolve_secondary_mod src a ir bw
  have hc := defaultedManager_secondaryConfigs src a ir bw
  simp only [digiManager]
  split
  · generalize hD : defaultedManager src a ir bw = D at hr hc ⊢
    rw [wireOne_secondaryConfigs _ _ _ (by simp), wireOne_unresolved _ _ _ hr]
    exact hc
  · exact hc

theorem digiManager_offset_freq (src : List (String × PVal)) (a : Bool) (ir bw : Int) :
    (digiManager src a ir bw).dsp.offset_freq = some (.vInt 0) := by
  simp only [digiManager]
  split
  · rw [wireOne_offset_freq _ _ _ (by simp), wireOne_offset_freq _ _ _ (by simp)]
    exact defaultedManager_offset_freq src a ir bw
  · exact defaultedManager_offset_freq src a ir bw

theorem digiManager_bpf (src : List (String × PVal)) (a : Bool) (ir bw : Int) :
    (digiManager src a ir bw).dsp.bpf = (.vInt (-4000), .vInt 4000) := by
  simp only [digiManager]
  split
  · rw [wireOne_bpf _ _ _ (by simp) (by simp), wireOne_bpf _ _ _ (by simp) (by simp)]
    exact defaultedManager_bpf src a ir bw
  · exact defaultedManager_bpf src a ir bw

theorem digiManager_flags (src : List (String × PVal)) (a : Bool) (ir bw : Int) :
    (digiManager src a ir bw).dsp.csdr_dynamic_bufsize = srcResolve src "csdr_dynamic_bufsize" ∧
    (digiManager src a ir bw).dsp.csdr_print_bufsizes = srcResolve src "csdr_print_bufsizes" ∧
    (digiManager src a ir bw).dsp.csdr_through = srcResolve src "csdr_through" := by
  simp only [digiManager]
  split
  · refine ⟨?_, ?_, ?_⟩
    · rw [(wireOne_flags _ _ _).1, (wireOne_flags _ _ _).1]
      exact (defaultedManager_flags src a ir bw).1
    · rw [(wireOne_flags _ _ _).2.1, (wireOne_flags _ _ _).2.1]
      exact (defaultedManager_flags src a ir bw).2.1
    · rw [(wireOne_flags _ _ _).2.2, (wireOne_flags _ _ _).2.2]
      exact (defaultedManager_flags src a ir bw).2.2
  · exact defaultedManager_flags src a ir bw

theorem digiManager_sourceAvailable (src : List (String × PVal)) (a : Bool) (ir bw : Int) :
    (digiManager src a ir bw).sourceAvailable = a := by
  simp only [digiManager]
  split
  · rw [wireOne_sourceAvailable, wireOne_sourceAvailable]
    exact defaultedManager_sourceAvailable src a ir bw
  · exact defaultedManager_sourceAvailable src a ir bw

theorem mkManager_localLayer (src : List (String × PVal)) (a : Bool) (ir bw : Int) :
    (mkManager src a ir bw).localLayer = { entries := [], allow := localKeys } := by
  simp only [mkManager]
  exact digiManager_localLayer src a ir bw

theorem mkManager_sourceLayer (src : List (String × PVal)) (a : Bool) (ir bw : Int) :
    (mkManager src a ir bw).sourceLayer = { entries := src, allow := sourceKeys } := by
  simp only [mkManager]
  exact digiManager_sourceLayer src a ir bw

theorem mkManager_resolve (src : List (String × PVal)) (a : Bool) (ir bw : Int) (k : String) :
    (mkManager src a ir bw).resolve k = srcResolve src k := by
  simp only [DspManager.resolve, srcResolve, mkManager_localLayer, mkManager_sourceLayer]

theorem mkManager_subsStore (src : List (String × PVal)) (a : Bool) (ir bw : Int) :
    (mkManager src a ir bw).subsStore =
      if truthyOpt (srcResolve src "digimodes_enable")
      then baseSubs ++ [secModSub, secOffSub]
      else baseSubs := by
  simp only [mkManager]
  exact digiManager_subsStore src a ir bw

theorem mkManager_parsers (src : List (String × PVal)) (a : Bool) (ir bw : Int) :
    (mkManager src a ir bw).parsers = initParsers := by
  simp only [mkManager]
  exact digiManager_parsers src a ir bw

theorem mkManager_secondaryConfigs (src : List (String × PVal)) (a : Bool) (ir bw : Int) :
    (mkManager src a ir bw).secondaryConfigs = [] := by
  simp only [mkManager]
  exact digiManager_secondaryConfigs src a ir bw

theorem mkManager_offset_freq (src : List (String × PVal)) (a : Bool) (ir bw : Int) :
    (mkManager src a ir bw).dsp.offset_freq = some (.vInt 0) := by
  simp only [mkManager]
  exact digiManager_offset_freq src a ir bw

theorem mkManager_bpf (src : List (String × PVal)) (a : Bool) (ir bw : Int) :
    (mkManager src a ir bw).dsp.bpf = (.vInt (-4000), .vInt 4000) := by
  simp only [mkManager]
  exact digiManager_bpf src a ir bw

theorem mkManager_flags (src : List (String × PVal)) (a : Bool) (ir bw : Int) :
    (mkManager src a ir bw).dsp.csdr_dynamic_bufsize = srcResolve src "csdr_dynamic_bufsize" ∧
    (mkManager src a ir bw).dsp.csdr_print_bufsizes = srcResolve src "csdr_print_bufsizes" ∧
    (mkManager src a ir bw).dsp.csdr_through = srcResolve src "csdr_through" := by
  simp only [mkManager]
  exact digiManager_flags src a ir bw

theorem mkManager_sourceAvailable (src : List (String × PVal)) (a : Bool) (ir bw : Int) :
    (mkManager src a ir bw).sourceAvailable = a := by
  simp only [mkManager]
  exact digiManager_sourceAvailable src a ir bw

theorem mkManager_registered (src : List (String × PVal)) (a : Bool) (ir bw : Int) :
    (mkManager src a ir bw).registered = true := by
  simp only [mkManager]

/-! ### Pipeline lifecycle helper lemmas -/

theorem DspState.start_running (d : DspState) : d.start.running = true := by
  simp only [DspState.start]
  split
  · assumption
  · rfl

theorem DspState.stop_running (d : DspState) : d.stop.running = false := by
  simp only [DspState.stop]
  split
  · rfl
  · simp_all

theorem DspState.stop_idem (d : DspState) : d.stop.stop = d.stop := by
  simp only [DspState.stop]
  split
  · simp
  · rfl

theorem cancelMarked_empty (i : Nat) (st : List Subscription) :
    cancelMarked [] i st = st := by
  induction st generalizing i with
  | nil => rfl
  | cons s rest ih => simp [cancelMarked, ih]

theorem cancelMarked_get? (hs : List Nat) (st : List Subscription) (i j : Nat) :
    (cancelMarked hs i st).get? j =
      (st.get? j).map (fun s => if i + j ∈ hs then { s with cancelled := true } else s) := by
  induction st generalizing i j with
  | nil => simp [cancelMarked]
  | cons s rest ih =>
      cases j with
      | zero => simp [cancelMarked]
      | succ j =>
          simp only [cancelMarked, List.get?_cons_succ, ih (i + 1) j]
          rw [show i + 1 + j = i + (j + 1) by omega]

/-- A concrete session state used to instantiate hypotheses: an offset
frequency in the local layer, a center frequency in the source layer, one
registered subscription. -/
def sampleM : DspManager :=
  { localLayer := { entries := [("offset_freq", .vInt 100)], allow := localKeys },
    sourceLayer := { entries := [("center_freq", .vInt 14000000)], allow := sourceKeys },
    dsp := initDsp 12000 3000,
    secondaryConfigs := [], parsers := initParsers,
    subsStore := [secModSub], subscriptions := [0],
    sourceAvailable := true, registered := true }

/-! ### The claims -/

/-- C1: `stop()` stops the pipeline, deregisters the session from the
shared source, cancels every subscription in the subscription list, and
clears that list; a second `stop()` in succession produces no second
pipeline-stop side effect and no error, and every subscription registered
before the first call reports cancelled after the first call. -/
theorem stop_cancels_all_and_is_idempotent (m : DspManager) :
    m.stop.dsp = m.dsp.stop ∧
    m.stop.dsp.running = false ∧
    m.stop.registered = false ∧
    m.stop.subscriptions = [] ∧
    (∀ i, i ∈ m.subscriptions →
      m.stop.subsStore.get? i =
        (m.subsStore.get? i).map (fun s => { s with cancelled := true })) ∧
    m.stop.stop = m.stop := by
  refine ⟨rfl, DspState.stop_running m.dsp, rfl, rfl, ?_, ?_⟩
  · intro i hi
    rw [show m.stop.subsStore = cancelMarked m.subscriptions 0 m.subsStore from rfl,
      cancelMarked_get? m.subscriptions m.subsStore 0 i]
    simp [hi]
  · simp [DspManager.stop, DspState.stop_idem, cancelMarked_empty]

/-- C1 witness: a concrete run of the theorem on `sampleM`, whose single
registered subscription (index 0) reports cancelled after `stop()`. -/
theorem stop_cancels_all_and_is_idempotent_witness :
    0 ∈ sampleM.subscriptions ∧
    sampleM.stop.subsStore.get? 0 =
      (sampleM.subsStore.get? 0).map (fun s => { s with cancelled := true }) :=
  ⟨by decide, (stop_cancels_all_and_is_idempotent sampleM).2.2.2.2.1 0 (by decide)⟩

/-- C2: `onStateChange` with RUNNING starts the pipeline; STOPPING or
FAILED stops it; for every state the subscription list, the subscription
store, the client registration and the property layers are unchanged, so
a RUNNING notification after a FAILED one restarts the pipeline without
re-registering any subscription. -/
theorem onStateChange_starts_and_stops_pipeline_only (m : DspManager) :
    (m.onStateChange .running).dsp = m.dsp.start ∧
    (m.onStateChange .stopping).dsp = m.dsp.stop ∧
    (m.onStateChange .failed).dsp = m.dsp.stop ∧
    (∀ st : SdrSourceState,
      (m.onStateChange st).subscriptions = m.subscriptions ∧
      (m.onStateChange st).subsStore = m.subsStore ∧
      (m.onStateChange st).registered = m.registered ∧
      (m.onStateChange st).localLayer = m.localLayer ∧
      (m.onStateChange st).sourceLayer = m.sourceLayer) ∧
    ((m.onStateChange .failed).onStateChange .running).dsp.running = true ∧
    ((m.onStateChange .failed).onStateChange .running).subsStore = m.subsStore := by
  refine ⟨rfl, rfl, rfl, ?_, DspState.start_running _, rfl⟩
  intro st
  cases st <;> exact ⟨rfl, rfl, rfl, rfl, rfl⟩

/-- C4: `set_low_cut` overwrites only the low edge of the filter band and
`set_high_cut` only the high edge; setting the low cut and then the high
cut yields the band made of exactly the two values set. -/
theorem low_high_cut_mutate_independent_edges (m : DspManager) (c d : PVal) :
    (set_low_cut m c).dsp.get_bpf = (c, m.dsp.get_bpf.2) ∧
    (set_high_cut m d).dsp.get_bpf = (m.dsp.get_bpf.1, d) ∧
    (set_high_cut (set_low_cut m c) d).dsp.get_bpf = (c, d) :=
  ⟨rfl, rfl, rfl⟩

/-- C5: `start()` invokes the pipeline's start operation exactly when the
shared source reports itself available; with the source unavailable the
call changes nothing (no error, session stays pending). -/
theorem start_only_when_source_available (m : DspManager) :
    (m.sourceAvailable = true → m.start = { m with dsp := m.dsp.start }) ∧
    (m.sourceAvailable = false → m.start = m) := by
  constructor <;> intro h <;> simp [DspManager.start, h]

/-- C5 witness: both branches at concrete sessions. -/
theorem start_only_when_source_available_witness :
    sampleM.start = { sampleM with dsp := sampleM.dsp.start } ∧
    DspManager.start { sampleM with sourceAvailable := false } =
      { sampleM with sourceAvailable := false } :=
  ⟨(start_only_when_source_available sampleM).1 rfl,
   (start_only_when_source_available { sampleM with sourceAvailable := false }).2 rfl⟩

/-- C9: the dial-frequency callback ignores the change event's key and
value arguments — under the same session state it forwards the same
frequency no matter which watched key changed or what value the event
carried. -/
theorem set_dial_freq_ignores_event_arguments
    (m : DspManager) (k1 k2 : String) (v1 v2 : PVal) :
    set_dial_freq m k1 v1 = set_dial_freq m k2 v2 := rfl

/-- C10: a busy-state change notification has no effect on any part of
the session's state. -/
theorem onBusyStateChange_is_noop (m : DspManager) (b : Bool) :
    m.onBusyStateChange b = m := rfl

/-- C6: whenever the composite {center_freq, offset_freq} subscription
fires, every registered protocol decoder receives the dial frequency
center + offset computed from the currently resolved values. -/
theorem dial_freq_is_center_plus_offset (m : DspManager) (k : String) (v : PVal) (c o : Int)
    (hc : m.resolve "center_freq" = some (.vInt c))
    (ho : m.resolve "offset_freq" = some (.vInt o)) :
    ∀ p ∈ (set_dial_freq m k v).parsers, p.dialFreq = some (c + o) := by
  intro p hp
  simp only [set_dial_freq, hc, ho] at hp
  simp only [List.mem_map] at hp
  obtain ⟨q, _, rfl⟩ := hp
  rfl

/-- C6 witness: on `sampleM` (center 14000000 Hz, offset 100 Hz) the
`meta` decoder is forwarded 14000100 Hz. -/
theorem dial_freq_is_center_plus_offset_witness :
    ({ name := "meta", dialFreq := some 14000100 } : Parser) ∈
      (set_dial_freq sampleM "center_freq" (.vInt 14000000)).parsers ∧
    ({ name := "meta", dialFreq := some 14000100 } : Parser).dialFreq =
      some (14000000 + 100) :=
  ⟨by decide,
   dial_freq_is_center_plus_offset sampleM "center_freq" (.vInt 14000000) 14000000 100
     (by decide) (by decide) _ (by decide)⟩

/-- C8: `receive_output` resolves the sink by channel name from the fixed
table — audio, smeter, secondary_fft and secondary_demod to the session
transport, each registered decoder's channel to that decoder — and fails
with an unconditional lookup error (`none`) for every other channel
name. -/
theorem receive_output_fixed_table (m : DspManager) (t : String)
    (hP : m.parsers = initParsers) :
    (m.receive_output "audio" = some .handlerAudio ∧
     m.receive_output "smeter" = some .handlerSMeter ∧
     m.receive_output "secondary_fft" = some .handlerSecondaryFFT ∧
     m.receive_output "secondary_demod" = some .handlerSecondaryDemod ∧
     m.receive_output "meta" = some (.parserSink "meta") ∧
     m.receive_output "wsjt_demod" = some (.parserSink "wsjt_demod") ∧
     m.receive_output "packet_demod" = some (.parserSink "packet_demod") ∧
     m.receive_output "pocsag_demod" = some (.parserSink "pocsag_demod")) ∧
    (t ∉ ["audio", "smeter", "secondary_fft", "secondary_demod",
          "meta", "wsjt_demod", "packet_demod", "pocsag_demod"] →
      m.receive_output t = none) := by
  constructor
  · refine ⟨?_, ?_, ?_, ?_, ?_, ?_, ?_, ?_⟩ <;>
      simp [DspManager.receive_output, hP, initParsers, tableGet]
  · intro ht
    simp only [List.mem_cons, List.mem_singleton, not_or] at ht
    obtain ⟨h1, h2, h3, h4, h5, h6, h7, h8⟩ := ht
    simp [DspManager.receive_output, hP, initParsers, tableGet,
      h1, h2, h3, h4, h5, h6, h7, h8]

/-- C8 witness: the unknown channel "fft" fails the lookup on a freshly
constructed session, and "audio" resolves to the transport sink. -/
theorem receive_output_fixed_table_witness :
    (mkManager [] true 0 0).receive_output "fft" = none ∧
    (mkManager [] true 0 0).receive_output "audio" = some .handlerAudio :=
  ⟨(receive_output_fixed_table (mkManager [] true 0 0) "fft"
      (mkManager_parsers [] true 0 0)).2 (by decide),
   (receive_output_fixed_table (mkManager [] true 0 0) "fft"
      (mkManager_parsers [] true 0 0)).1.1⟩

/-! ### Dispatch evaluation lemmas -/

theorem fireSubs_no_watch (k : String) (v : PVal) (subs : List Subscription) (m : DspManager)
    (h : ∀ s ∈ subs, k ∉ s.keys) : fireSubs k v subs m = m := by
  induction subs generalizing m with
  | nil => rfl
  | cons s rest ih =>
      have hk : k ∉ s.keys := h s (List.mem_cons_self _ _)
      simp only [fireSubs, hk, and_false, if_false]
      exact ih m (fun x hx => h x (List.mem_cons_of_mem _ hx))

theorem fireSubs_digi_secondary_mod (v : PVal) (m : DspManager) :
    fireSubs "secondary_mod" v (baseSubs ++ [secModSub, secOffSub]) m =
      set_secondary_mod m v := by
  simp [fireSubs, baseSubs, baseWires, dialSub, secModSub, secOffSub, runCallback]

theorem resolve_nonlocal_key_ignores_local (e1 e2 : List (String × PVal))
    (srcL : PropertyLayer) (k : String) (hk : k ∉ localKeys) :
    stackResolve { entries := e1, allow := localKeys } srcL k =
      stackResolve { entries := e2, allow := localKeys } srcL k := by
  simp [stackResolve, layerGet, hk]

theorem setProperty_secondary_mod_digi (m : DspManager) (v : PVal)
    (hL : m.localLayer = { entries := [], allow := localKeys })
    (hR : m.resolve "secondary_mod" = none)
    (hS : m.subsStore = baseSubs ++ [secModSub, secOffSub]) :
    m.setProperty "secondary_mod" v =
      set_secondary_mod
        { m with localLayer := { entries := [("secondary_mod", v)], allow := localKeys } } v := by
  have hset : layerSet m.localLayer "secondary_mod" v =
      { entries := [("secondary_mod", v)], allow := localKeys } := by
    rw [hL]
    simp [layerSet, localKeys, alistSet]
  have hres : ({ m with localLayer :=
      { entries := [("secondary_mod", v)], allow := localKeys } } : DspManager).resolve
        "secondary_mod" = some v := by
    simp [DspManager.resolve, stackResolve, layerGet, localKeys, alistGet]
  simp only [DspManager.setProperty, hset]
  rw [if_neg (by rw [hR, hres]; simp)]
  simp only [fireKey, hres]
  rw [show ({ m with localLayer :=
      { entries := [("secondary_mod", v)], allow := localKeys } } : DspManager).subsStore =
      m.subsStore from rfl, hS]
  exact fireSubs_digi_secondary_mod v _

theorem set_secondary_mod_fields (m : DspManager) (v : PVal) (hv : pyEqFalse v = false) :
    (set_secondary_mod m v).dsp.secondary_demod = some v ∧
    (set_secondary_mod m v).secondaryConfigs =
      m.secondaryConfigs ++
        [{ secondary_fft_size := m.resolve "digimodes_fft_size",
           if_samp_rate := m.dsp.if_samp_rate,
           secondary_bw := m.dsp.secondary_bw }] := by
  simp [set_secondary_mod, hv, DspState.set_secondary_demodulator, DspState.if_samp_rate,
    DspState.secondary_bw, DspManager.resolve]

theorem set_secondary_mod_false_fields (m : DspManager) (v : PVal) (hv : pyEqFalse v = true) :
    (set_secondary_mod m v).dsp.secondary_demod = none ∧
    (set_secondary_mod m v).secondaryConfigs = m.secondaryConfigs := by
  simp [set_secondary_mod, hv, DspState.set_secondary_demodulator]

/-- C3: with the digital-modes flag enabled at construction, setting
`secondary_mod` to a (string) mode selects it as secondary demodulator and
emits exactly one secondary-config announcement carrying the resolved
`digimodes_fft_size` and the controller's intermediate sample rate and
secondary bandwidth at that moment; setting it to `False` selects no
secondary demodulator and emits no announcement. -/
theorem secondary_mod_announces_exactly_once
    (src : List (String × PVal)) (a : Bool) (ir bw : Int) (s : String)
    (hd : truthyOpt (srcResolve src "digimodes_enable") = true) :
    ((mkManager src a ir bw).setProperty "secondary_mod" (.vStr s)).dsp.secondary_demod =
      some (.vStr s) ∧
    ((mkManager src a ir bw).setProperty "secondary_mod" (.vStr s)).secondaryConfigs =
      [{ secondary_fft_size := (mkManager src a ir bw).resolve "digimodes_fft_size",
         if_samp_rate := (mkManager src a ir bw).dsp.if_samp_rate,
         secondary_bw := (mkManager src a ir bw).dsp.secondary_bw }] ∧
    ((mkManager src a ir bw).setProperty "secondary_mod" (.vBool false)).dsp.secondary_demod =
      none ∧
    ((mkManager src a ir bw).setProperty "secondary_mod" (.vBool false)).secondaryConfigs =
      [] := by
  have hL := mkManager_localLayer src a ir bw
  have hR : (mkManager src a ir bw).resolve "secondary_mod" = none := by
    rw [mkManager_resolve]
    exact srcResolve_local_only src _ (by simp [localKeys]) (by simp [sourceKeys])
  have hS : (mkManager src a ir bw).subsStore = baseSubs ++ [secModSub, secOffSub] := by
    rw [mkManager_subsStore, if_pos hd]
  have hC := mkManager_secondaryConfigs src a ir bw
  generalize hM : mkManager src a ir bw = M at hL hR hS hC ⊢
  rw [setProperty_secondary_mod_digi M (.vStr s) hL hR hS,
    setProperty_secondary_mod_digi M (.vBool false) hL hR hS]
  refine ⟨(set_secondary_mod_fields _ (.vStr s) rfl).1, ?_,
    (set_secondary_mod_false_fields _ (.vBool false) rfl).1, ?_⟩
  · rw [(set_secondary_mod_fields _ (.vStr s) rfl).2]
    rw [show ({ M with localLayer :=
        { entries := [("secondary_mod", PVal.vStr s)], allow := localKeys } } :
        DspManager).secondaryConfigs = M.secondaryConfigs from rfl, hC]
    simp only [List.nil_append]
    simp [DspManager.resolve, hL, stackResolve, layerGet, localKeys]
  · rw [(set_secondary_mod_false_fields _ (.vBool false) rfl).2]
    rw [show ({ M with localLayer :=
        { entries := [("secondary_mod", PVal.vBool false)], allow := localKeys } } :
        DspManager).secondaryConfigs = M.secondaryConfigs from rfl, hC]

/-- C3 witness: a concrete session with digital modes enabled. -/
theorem secondary_mod_announces_exactly_once_witness :
    ((mkManager [("digimodes_enable", PVal.vBool true), ("digimodes_fft_size", PVal.vInt 2048)]
        true 12000 3000).setProperty "secondary_mod" (.vStr "bpsk31")).dsp.secondary_demod =
      some (.vStr "bpsk31") ∧
    ((mkManager [("digimodes_enable", PVal.vBool true), ("digimodes_fft_size", PVal.vInt 2048)]
        true 12000 3000).setProperty "secondary_mod" (.vStr "bpsk31")).secondaryConfigs =
      [{ secondary_fft_size :=
           (mkManager [("digimodes_enable", PVal.vBool true), ("digimodes_fft_size", PVal.vInt 2048)]
             true 12000 3000).resolve "digimodes_fft_size",
         if_samp_rate :=
           (mkManager [("digimodes_enable", PVal.vBool true), ("digimodes_fft_size", PVal.vInt 2048)]
             true 12000 3000).dsp.if_samp_rate,
         secondary_bw :=
           (mkManager [("digimodes_enable", PVal.vBool true), ("digimodes_fft_size", PVal.vInt 2048)]
             true 12000 3000).dsp.secondary_bw }] ∧
    ((mkManager [("digimodes_enable", PVal.vBool true), ("digimodes_fft_size", PVal.vInt 2048)]
        true 12000 3000).setProperty "secondary_mod" (.vBool false)).dsp.secondary_demod = none ∧
    ((mkManager [("digimodes_enable", PVal.vBool true), ("digimodes_fft_size", PVal.vInt 2048)]
        true 12000 3000).setProperty "secondary_mod" (.vBool false)).secondaryConfigs = [] :=
  secondary_mod_announces_exactly_once _ true 12000 3000 "bpsk31" (by decide)

theorem setProperty_not_local (m : DspManager) (k : String) (v : PVal)
    (hA : m.localLayer.allow = localKeys) (hk : k ∉ localKeys) :
    m.setProperty k v = m := by
  have hset : layerSet m.localLayer k v = m.localLayer := by
    simp [layerSet, hA, hk]
  simp only [DspManager.setProperty, hset]
  simp

theorem setSourceProperty_unwatched_dsp (m : DspManager) (k : String) (v : PVal)
    (h : ∀ s ∈ m.subsStore, k ∉ s.keys) :
    (setSourceProperty m k v).dsp = m.dsp := by
  simp only [setSourceProperty]
  split
  · rfl
  · simp only [fireKey]
    split
    · rw [fireSubs_no_watch _ _ _ _ (fun s hs => h s hs)]
    · rfl

theorem subs_not_watching_flags :
    ∀ sub ∈ baseSubs ++ [secModSub, secOffSub],
      "csdr_dynamic_bufsize" ∉ sub.keys ∧ "csdr_print_bufsizes" ∉ sub.keys ∧
      "csdr_through" ∉ sub.keys := by
  simp [baseSubs, baseWires, dialSub, secModSub, secOffSub]

/-- C7: at construction the three buffering/debug flags are copied once
from the resolved stack into the controller; no subscription watches any
of the three keys, so setting one of them after construction — through the
session's `setProperty` or through the shared source's layer — leaves the
controller's flags (indeed its whole state) unchanged; and the startup
defaults offset frequency 0 and filter band (-4000, 4000) are applied. -/
theorem tuning_flags_copied_once_not_live
    (src : List (String × PVal)) (a : Bool) (ir bw : Int) (v : PVal) :
    ((mkManager src a ir bw).dsp.csdr_dynamic_bufsize =
        (mkManager src a ir bw).resolve "csdr_dynamic_bufsize" ∧
     (mkManager src a ir bw).dsp.csdr_print_bufsizes =
        (mkManager src a ir bw).resolve "csdr_print_bufsizes" ∧
     (mkManager src a ir bw).dsp.csdr_through =
        (mkManager src a ir bw).resolve "csdr_through") ∧
    (∀ sub ∈ (mkManager src a ir bw).subsStore,
      "csdr_dynamic_bufsize" ∉ sub.keys ∧ "csdr_print_bufsizes" ∉ sub.keys ∧
      "csdr_through" ∉ sub.keys) ∧
    ((mkManager src a ir bw).setProperty "csdr_dynamic_bufsize" v = mkManager src a ir bw ∧
     (mkManager src a ir bw).setProperty "csdr_print_bufsizes" v = mkManager src a ir bw ∧
     (mkManager src a ir bw).setProperty "csdr_through" v = mkManager src a ir bw) ∧
    ((setSourceProperty (mkManager src a ir bw) "csdr_dynamic_bufsize" v).dsp =
        (mkManager src a ir bw).dsp ∧
     (setSourceProperty (mkManager src a ir bw) "csdr_print_bufsizes" v).dsp =
        (mkManager src a ir bw).dsp ∧
     (setSourceProperty (mkManager src a ir bw) "csdr_through" v).dsp =
        (mkManager src a ir bw).dsp) ∧
    (mkManager src a ir bw).dsp.offset_freq = some (.vInt 0) ∧
    (mkManager src a ir bw).dsp.bpf = (.vInt (-4000), .vInt 4000) := by
  have hF := mkManager_flags src a ir bw
  have hW : ∀ sub ∈ (mkManager src a ir bw).subsStore,
      "csdr_dynamic_bufsize" ∉ sub.keys ∧ "csdr_print_bufsizes" ∉ sub.keys ∧
      "csdr_through" ∉ sub.keys := by
    rw [mkManager_subsStore]
    split
    · exact subs_not_watching_flags
    · exact fun sub hs => subs_not_watching_flags sub (List.mem_append_left _ hs)
  have hA : (mkManager src a ir bw).localLayer.allow = localKeys := by
    rw [mkManager_localLayer]
  refine ⟨⟨?_, ?_, ?_⟩, hW, ⟨?_, ?_, ?_⟩, ⟨?_, ?_, ?_⟩, mkManager_offset_freq src a ir bw,
    mkManager_bpf src a ir bw⟩
  · exact hF.1.trans (mkManager_resolve src a ir bw _).symm
  · exact hF.2.1.trans (mkManager_resolve src a ir bw _).symm
  · exact hF.2.2.trans (mkManager_resolve src a ir bw _).symm
  · exact setProperty_not_local _ _ v hA (by simp [localKeys])
  · exact setProperty_not_local _ _ v hA (by simp [localKeys])
  · exact setProperty_not_local _ _ v hA (by simp [localKeys])
  · exact setSourceProperty_unwatched_dsp _ _ v (fun s hs => (hW s hs).1)
  · exact setSourceProperty_unwatched_dsp _ _ v (fun s hs => (hW s hs).2.1)
  · exact setSourceProperty_unwatched_dsp _ _ v (fun s hs => (hW s hs).2.2)

/-- C7 witness: on a concrete fresh session the composite dial-frequency
subscription is registered and watches none of the three flag keys. -/
theorem tuning_flags_copied_once_not_live_witness :
    dialSub ∈ (mkManager [] true 0 0).subsStore ∧
    ("csdr_dynamic_bufsize" ∉ dialSub.keys ∧ "csdr_print_bufsizes" ∉ dialSub.keys ∧
     "csdr_through" ∉ dialSub.keys) :=
  ⟨by decide,
   (tuning_flags_copied_once_not_live [] true 0 0 (.vBool true)).2.1 dialSub (by decide)⟩
